import Mathlib

/-!
Verification of the equipment/kit reservation tracker.

This file gives a shallow embedding of the reservation-lifecycle core of the
repository: the availability check (`checkAvailability` in the reservation
form), the three lifecycle operations (`handleSubmit` for creation,
`handlePickup` in the pickup modal, `handleReturn` in the return modal), the
derived kit status (`getKitStatus` in the kit list) and the pickup
eligibility test (`isPickupEligible` in the calendar).

Modelling conventions:
- Database rows (tables `reservations`, `equipment`, `kit_equipment`) are
  lists of records in a `DB` value; a remote update is a pure function on
  `DB`.
- Dates travel as ISO `YYYY-MM-DD` strings exactly as in the code; the SQL
  `lte`/`gte` comparisons on `date` columns agree with byte-wise
  lexicographic order on such strings, embedded here as `strLe`.
- Photo files are identified with the reference URL the upload produces, so
  a photo list is a `List String`.
- Each remote call can fail.  The components never retry; a `RemoteOutcome`
  record says which of the remote calls of one invocation succeed, and the
  embedding reproduces exactly which of those failures the code checks
  (throwing into the surrounding `catch`) and which it silently ignores.
- The ambient authenticated profile is modelled as an always-present user
  id, and empty text form fields are the empty string, as in the DOM.
-/

/-- Byte-wise lexicographic order on character lists (the order SQL uses on
ISO-formatted `date` strings).  Defined by hand so that it evaluates in the
kernel. -/
def lexLe : List Char → List Char → Bool
  | [], _ => true
  | _ :: _, [] => false
  | c :: cs, d :: ds =>
    if c.toNat < d.toNat then true
    else if d.toNat < c.toNat then false
    else lexLe cs ds

/-- `strLe a b` embeds the SQL comparison `a <= b` on date strings. -/
def strLe (a b : String) : Bool := lexLe a.data b.data

/-- A row of the `equipment` table (the fields the lifecycle logic reads). -/
structure Equip where
  id : String
  status : String
deriving DecidableEq

/-- A row of the `reservations` table. -/
structure Reservation where
  id : String
  user_id : String
  equipment_id : Option String
  kit_id : Option String
  start_date : String
  end_date : String
  reason : String
  status : String
  pickup_photos : List String
  return_photos : List String
  pickup_completed : Bool
  pickup_date : String
  email_sent : Bool
deriving DecidableEq

/-- The stored state the lifecycle logic touches: the `reservations` and
`equipment` tables and the `kit_equipment` join table, whose rows are
`(kit_id, equipment_id)` pairs. -/
structure DB where
  reservations : List Reservation
  equipment : List Equip
  kit_equipment : List (String × String)
deriving DecidableEq

/-- The `.in('status', ['agendado', 'em uso'])` filter of the availability
query: a reservation is active when scheduled or in use. -/
def isActiveStatus (s : String) : Bool := s == "agendado" || s == "em uso"

/-- The `.eq(field, selectedId)` filter: `field` is `equipment_id` when an
equipment unit is being reserved and `kit_id` when a kit is. -/
def matchesTarget (reservationType selectedId : String) (r : Reservation) : Bool :=
  if reservationType == "equipment" then r.equipment_id == some selectedId
  else r.kit_id == some selectedId

/-- The date filter the reservation form sends, written
`.or(start_date.lte.endDate,end_date.gte.startDate)`: the two comparisons
are joined by OR (a PostgREST `or=` group), not by AND. -/
def orDateFilter (startDate endDate : String) (r : Reservation) : Bool :=
  strLe r.start_date endDate || strLe startDate r.end_date

/-- Embeds `checkAvailability` from the reservation form: returns `true`
(available) when any of the three form fields is empty, otherwise queries
the reservations on the selected target whose status is active and which
pass the `orDateFilter` date condition, and returns `true` exactly when no
such row exists. -/
def checkAvailability (db : DB) (reservationType selectedId startDate endDate : String) :
    Bool :=
  if selectedId == "" || startDate == "" || endDate == "" then true
  else
    (db.reservations.filter (fun r =>
      matchesTarget reservationType selectedId r && isActiveStatus r.status &&
        orDateFilter startDate endDate r)).length == 0

/-- The interval-overlap test the specification describes for the
availability query: `existing.start <= candidate.end AND existing.end >=
candidate.start`.  Modelled from the spec's words (not from the source) so
the source's `orDateFilter` can be compared against it. -/
def specOverlap (startDate endDate : String) (r : Reservation) : Bool :=
  strLe r.start_date endDate && strLe startDate r.end_date

/-- The availability check as the specification words it: same query as
`checkAvailability` but with the AND overlap test `specOverlap` as the date
condition.  Modelled from the spec's words for comparison with the source's
`checkAvailability`. -/
def specCheckAvailability (db : DB) (reservationType selectedId startDate endDate : String) :
    Bool :=
  if selectedId == "" || startDate == "" || endDate == "" then true
  else
    (db.reservations.filter (fun r =>
      matchesTarget reservationType selectedId r && isActiveStatus r.status &&
        specOverlap startDate endDate r)).length == 0

/-- Embeds `getKitStatus` from the kit list: the derived status of a kit,
computed from the statuses of its member equipment rows. -/
def getKitStatus (kitEquipment : List Equip) : String :=
  if kitEquipment.length == 0 then "vazio"
  else if kitEquipment.all (fun e => e.status == "disponível") then "disponível"
  else if kitEquipment.any (fun e => e.status == "em uso") then "em uso"
  else "reservado"

/-- Embeds `isPickupEligible` from the reservation calendar: a reservation
may be picked up when its status is still `agendado` and its start date is
on or before today (both sides truncated to the day, as the code zeroes the
time-of-day fields). -/
def isPickupEligible (today : String) (r : Reservation) : Bool :=
  if r.status != "agendado" then false
  else strLe r.start_date today

/-- Outcome of the notification POST issued after a pickup: the response was
OK, the response was non-OK (`!response.ok`), or the fetch itself rejected. -/
inductive NotifyResult
  | ok
  | httpError
  | networkError
deriving DecidableEq

/-- Which of the remote calls of one lifecycle invocation succeed.
`photoUpload` covers the `Promise.all` of storage uploads,
`reservationWrite` the insert/update on `reservations`, `kitSelect` the
member lookup on `kit_equipment`, `equipmentWrite` the status update(s) on
`equipment`, and `emailSentWrite` the `email_sent` update issued before the
notification POST. -/
structure RemoteOutcome where
  photoUpload : Bool
  reservationWrite : Bool
  kitSelect : Bool
  equipmentWrite : Bool
  emailSentWrite : Bool
  notifySend : NotifyResult
deriving DecidableEq

/-- The invocation in which every remote call succeeds. -/
def allOk : RemoteOutcome :=
  { photoUpload := true, reservationWrite := true, kitSelect := true,
    equipmentWrite := true, emailSentWrite := true, notifySend := .ok }

/-- Update every `reservations` row whose `id` equals `rid` (the
`.update(...).eq('id', rid)` pattern). -/
def updateReservationRow (db : DB) (rid : String) (f : Reservation → Reservation) : DB :=
  { db with reservations := db.reservations.map (fun r => if r.id == rid then f r else r) }

/-- Update the status of every `equipment` row whose `id` equals `eid` (the
`.update({ status }).eq('id', eid)` pattern). -/
def setEquipmentStatus (db : DB) (eid status : String) : DB :=
  { db with equipment := db.equipment.map (fun e =>
      if e.id == eid then { e with status := status } else e) }

/-- The member equipment ids of a kit, as read from `kit_equipment` by
`.select('equipment_id').eq('kit_id', kid)`. -/
def kitMemberIds (db : DB) (kid : String) : List String :=
  (db.kit_equipment.filter (fun ke => ke.1 == kid)).map (fun ke => ke.2)

/-- Update the status of every `equipment` row whose `id` is in `ids` (the
`.update({ status }).in('id', ids)` fan-out pattern). -/
def setEquipmentStatusIn (db : DB) (ids : List String) (status : String) : DB :=
  { db with equipment := db.equipment.map (fun e =>
      if ids.contains e.id then { e with status := status } else e) }

/-- Embeds `sendSummaryEmail` from the pickup modal: the POST to the
notification endpoint is wrapped in `try/catch`; a non-OK response and a
rejected fetch are both only logged with `console.error`, so the function
returns normally in every case and never throws into the caller. -/
def sendSummaryEmail : NotifyResult → Except String Unit
  | .ok => .ok ()
  | .httpError => .ok ()
  | .networkError => .ok ()

/-- Embeds `handleSubmit` from the reservation form (reservation creation).
Order of effects as in the source: empty-photo validation, availability
check, photo uploads, insert of the reservation row (with status `em uso`
and the uploaded photo references; the insert error is checked and aborts),
then the equipment status fan-out, whose own errors the source never
checks.  `newId` stands for the row id the database generates. -/
def handleSubmit (db : DB) (reservationType selectedId startDate endDate reason : String)
    (pickupPhotos : List String) (userId newId : String) (oc : RemoteOutcome) :
    Except String Unit × DB :=
  if pickupPhotos.length == 0 then
    (.error "Adicione pelo menos uma foto da retirada", db)
  else if !checkAvailability db reservationType selectedId startDate endDate then
    (.error "Este item já está reservado para o período selecionado", db)
  else if !oc.photoUpload then
    (.error "Erro ao criar reserva", db)
  else if !oc.reservationWrite then
    (.error "Erro ao criar reserva", db)
  else
    let row : Reservation :=
      { id := newId, user_id := userId,
        equipment_id := if reservationType == "equipment" then some selectedId else none,
        kit_id := if reservationType == "equipment" then none else some selectedId,
        start_date := startDate, end_date := endDate, reason := reason,
        status := "em uso", pickup_photos := pickupPhotos, return_photos := [],
        pickup_completed := false, pickup_date := "", email_sent := false }
    let db1 : DB := { db with reservations := db.reservations ++ [row] }
    let db2 : DB :=
      if reservationType == "equipment" then
        if oc.equipmentWrite then setEquipmentStatus db1 selectedId "em uso" else db1
      else
        if oc.kitSelect then
          if oc.equipmentWrite then
            setEquipmentStatusIn db1 (kitMemberIds db1 selectedId) "em uso"
          else db1
        else db1
    (.ok (), db2)

/-- Embeds `handlePickup` from the pickup modal.  Order of effects as in the
source: selection and empty-photo validation, lookup of the selected
reservation in the list the modal received, photo uploads, the reservation
update to `em uso` with pickup photos, `pickup_completed` and
`pickup_date` (its error is never checked), the equipment status fan-out
(errors never checked), the `email_sent := true` update (error never
checked), and finally the notification POST via `sendSummaryEmail`. -/
def handlePickup (db : DB) (reservations : List Reservation) (selectedReservationId : String)
    (pickupPhotos : List String) (today : String) (oc : RemoteOutcome) :
    Except String Unit × DB :=
  if selectedReservationId == "" then
    (.error "Selecione um equipamento ou kit para retirada", db)
  else if pickupPhotos.length == 0 then
    (.error "Adicione pelo menos uma foto da retirada", db)
  else
    match reservations.find? (fun r => r.id == selectedReservationId) with
    | none => (.error "Reserva não encontrada", db)
    | some reservation =>
      if !oc.photoUpload then (.error "Erro ao processar retirada", db)
      else
        let db1 : DB :=
          if oc.reservationWrite then
            updateReservationRow db selectedReservationId (fun r =>
              { r with status := "em uso", pickup_photos := pickupPhotos,
                       pickup_completed := true, pickup_date := today })
          else db
        let db2 : DB :=
          match reservation.equipment_id with
          | some eid =>
            if oc.equipmentWrite then setEquipmentStatus db1 eid "em uso" else db1
          | none =>
            match reservation.kit_id with
            | some kid =>
              if oc.kitSelect then
                if oc.equipmentWrite then
                  setEquipmentStatusIn db1 (kitMemberIds db1 kid) "em uso"
                else db1
              else db1
            | none => db1
        let db3 : DB :=
          if oc.emailSentWrite then
            updateReservationRow db2 selectedReservationId (fun r => { r with email_sent := true })
          else db2
        match sendSummaryEmail oc.notifySend with
        | .error msg => (.error msg, db3)
        | .ok _ => (.ok (), db3)

/-- Embeds `handleReturn` from the return modal.  Order of effects as in the
source: selection and empty-photo validation, lookup of the selected
reservation, photo uploads, the reservation update to `concluído` with the
return photos (this update's error IS checked and aborts), then the
equipment status fan-out back to `disponível` (errors never checked). -/
def handleReturn (db : DB) (reservations : List Reservation) (selectedReservationId : String)
    (returnPhotos : List String) (oc : RemoteOutcome) :
    Except String Unit × DB :=
  if selectedReservationId == "" then
    (.error "Selecione um equipamento ou kit para devolver", db)
  else if returnPhotos.length == 0 then
    (.error "Adicione pelo menos uma foto da devolução", db)
  else
    match reservations.find? (fun r => r.id == selectedReservationId) with
    | none => (.error "Reserva não encontrada", db)
    | some reservation =>
      if !oc.photoUpload then (.error "Erro ao processar devolução", db)
      else if !oc.reservationWrite then (.error "Erro ao processar devolução", db)
      else
        let db1 : DB :=
          updateReservationRow db selectedReservationId (fun r =>
            { r with status := "concluído", return_photos := returnPhotos })
        let db2 : DB :=
          match reservation.equipment_id with
          | some eid =>
            if oc.equipmentWrite then setEquipmentStatus db1 eid "disponível" else db1
          | none =>
            match reservation.kit_id with
            | some kid =>
              if oc.kitSelect then
                if oc.equipmentWrite then
                  setEquipmentStatusIn db1 (kitMemberIds db1 kid) "disponível"
                else db1
              else db1
            | none => db1
        (.ok (), db2)

/-- A reservation claims a given equipment unit when it references it
directly or through the kit membership table. -/
def claimsEquipment (db : DB) (r : Reservation) (eid : String) : Bool :=
  r.equipment_id == some eid ||
    (match r.kit_id with
     | some kid => (kitMemberIds db kid).contains eid
     | none => false)

/-- An active claim in the sense of the status invariant: the reservation is
in use, or scheduled with its pickup already completed. -/
def isActiveClaim (r : Reservation) : Bool :=
  r.status == "em uso" || (r.status == "agendado" && r.pickup_completed)

/-- The equipment/reservation status invariant the specification asserts:
every equipment row is `em uso` exactly when some reservation holds an
active claim on it. -/
def statusConsistent (db : DB) : Bool :=
  db.equipment.all (fun e =>
    (e.status == "em uso") ==
      db.reservations.any (fun r => isActiveClaim r && claimsEquipment db r e.id))

/-- An existing scheduled reservation on equipment `E` for days 10 to 12 of
January (the boundary scenario of the specification's test list). -/
def rBoundary : Reservation :=
  { id := "r1", user_id := "u1", equipment_id := some "E", kit_id := none,
    start_date := "2024-01-10", end_date := "2024-01-12", reason := "gravacao",
    status := "agendado", pickup_photos := ["p1"], return_photos := [],
    pickup_completed := false, pickup_date := "", email_sent := false }

/-- A database holding only `rBoundary` and its equipment unit. -/
def dbBoundary : DB :=
  { reservations := [rBoundary],
    equipment := [{ id := "E", status := "disponível" }],
    kit_equipment := [] }

/-- An unrelated in-use reservation on equipment `M1`, which is also a
member of kit `K` below. -/
def rUnrelated : Reservation :=
  { id := "r3", user_id := "u2", equipment_id := some "M1", kit_id := none,
    start_date := "2024-03-01", end_date := "2024-03-05", reason := "uso externo",
    status := "em uso", pickup_photos := ["p2"], return_photos := [],
    pickup_completed := true, pickup_date := "2024-03-01", email_sent := true }

/-- Kit `K` with members `M1`, `M2`, `M3`; `M1` is in use under the
unrelated direct reservation `rUnrelated`. -/
def kitDbInUse : DB :=
  { reservations := [rUnrelated],
    equipment := [{ id := "M1", status := "em uso" },
                  { id := "M2", status := "disponível" },
                  { id := "M3", status := "disponível" }],
    kit_equipment := [("K", "M1"), ("K", "M2"), ("K", "M3")] }

/-- The same database as `kitDbInUse` except that member `M1`'s status field
reads available. -/
def kitDbAvail : DB :=
  { reservations := [rUnrelated],
    equipment := [{ id := "M1", status := "disponível" },
                  { id := "M2", status := "disponível" },
                  { id := "M3", status := "disponível" }],
    kit_equipment := [("K", "M1"), ("K", "M2"), ("K", "M3")] }

/-- The pickup invocation in which every remote call succeeds except the
equipment status update. -/
def pickupEquipFail : RemoteOutcome :=
  { photoUpload := true, reservationWrite := true, kitSelect := true,
    equipmentWrite := false, emailSentWrite := true, notifySend := .ok }

/-- The equipment row `E` as it reads after a successful pickup. -/
def eqInUse : Equip := { id := "E", status := "em uso" }

/-- An in-use reservation on equipment `E` about to be returned. -/
def rInUse : Reservation :=
  { id := "r5", user_id := "u1", equipment_id := some "E", kit_id := none,
    start_date := "2024-01-10", end_date := "2024-01-12", reason := "gravacao",
    status := "em uso", pickup_photos := ["p1"], return_photos := [],
    pickup_completed := true, pickup_date := "2024-01-10", email_sent := true }

/-- A second, still-active reservation claiming the same equipment `E`. -/
def rOther : Reservation :=
  { id := "r4", user_id := "u3", equipment_id := some "E", kit_id := none,
    start_date := "2024-01-11", end_date := "2024-01-13", reason := "outro uso",
    status := "em uso", pickup_photos := ["p3"], return_photos := [],
    pickup_completed := true, pickup_date := "2024-01-11", email_sent := true }

/-- A state in which two active reservations claim equipment `E`. -/
def dbReturn : DB :=
  { reservations := [rInUse, rOther],
    equipment := [{ id := "E", status := "em uso" }],
    kit_equipment := [] }

/-- The row `rInUse` as it reads after the return completes. -/
def rReturned : Reservation :=
  { rInUse with status := "concluído", return_photos := ["rp1"] }

/-- The equipment row `E` as it reads after the unconditional revert. -/
def eqAvailable : Equip := { id := "E", status := "disponível" }

/-- The pickup invocation in which every remote call succeeds but the
notification POST fails with a network error. -/
def pickupNotifyFail : RemoteOutcome :=
  { photoUpload := true, reservationWrite := true, kitSelect := true,
    equipmentWrite := true, emailSentWrite := true, notifySend := .networkError }

/-- The reservation row `r1` as it reads after a pickup whose notification
POST failed. -/
def rPicked : Reservation :=
  { rBoundary with
    status := "em uso"
    pickup_photos := ["p1"]
    pickup_completed := true
    pickup_date := "2024-01-10"
    email_sent := true }

theorem lexLe_total (a b : List Char) : lexLe a b = true ∨ lexLe b a = true := by
  induction a generalizing b with
  | nil => exact Or.inl rfl
  | cons c cs ih =>
    cases b with
    | nil => exact Or.inr rfl
    | cons d ds =>
      rcases Nat.lt_trichotomy c.toNat d.toNat with h | h | h
      · exact Or.inl (by simp [lexLe, h])
      · rcases ih ds with h2 | h2
        · exact Or.inl (by simp [lexLe, h, h2])
        · exact Or.inr (by simp [lexLe, h, h2])
      · exact Or.inr (by simp [lexLe, h])

theorem lexLe_trans : ∀ {a b c : List Char},
    lexLe a b = true → lexLe b c = true → lexLe a c = true := by
  intro a
  induction a with
  | nil => intro b c _ _; rfl
  | cons x xs ih =>
    intro b c hab hbc
    cases b with
    | nil => simp [lexLe] at hab
    | cons y ys =>
      cases c with
      | nil => simp [lexLe] at hbc
      | cons z zs =>
        rcases Nat.lt_trichotomy x.toNat y.toNat with h1 | h1 | h1
        · rcases Nat.lt_trichotomy y.toNat z.toNat with h2 | h2 | h2
          · simp [lexLe, Nat.lt_trans h1 h2]
          · simp [lexLe, h2 ▸ h1]
          · simp [lexLe, h2, Nat.lt_asymm h2] at hbc
        · rcases Nat.lt_trichotomy y.toNat z.toNat with h2 | h2 | h2
          · simp [lexLe, h1 ▸ h2]
          · have hxz : x.toNat = z.toNat := h1.trans h2
            have hab' : lexLe xs ys = true := by
              simpa [lexLe, h1] using hab
            have hbc' : lexLe ys zs = true := by
              simpa [lexLe, h2] using hbc
            simp [lexLe, hxz, ih hab' hbc']
          · simp [lexLe, h2, Nat.lt_asymm h2] at hbc
        · simp [lexLe, h1, Nat.lt_asymm h1] at hab

theorem strLe_total (a b : String) : strLe a b = true ∨ strLe b a = true :=
  lexLe_total a.data b.data

theorem strLe_trans {a b c : String} (h1 : strLe a b = true) (h2 : strLe b c = true) :
    strLe a c = true :=
  lexLe_trans h1 h2

/-- Claim C1: the availability result is claimed to be a conflict exactly
when an active reservation on the target satisfies the AND overlap test
`existing.start <= candidate.end AND existing.end >= candidate.start`, so
that a candidate window disjoint from every active reservation (day 13 to
15 after an existing day 10 to 12 booking) is accepted.  The source instead
joins the two comparisons with a PostgREST `or` group.  First conjunct: for
every reservation with a well-formed range and every well-formed candidate
window, that OR condition is identically true, so the date part of the
query filters nothing.  Second and third conjuncts: on the concrete
boundary scenario the source's `checkAvailability` reports a conflict for
the disjoint day 13 to 15 window while the specification's AND test
(`specCheckAvailability`) accepts it. -/
theorem checkAvailability_or_filter_rejects_disjoint_window :
    (∀ (r : Reservation) (s e : String),
        strLe r.start_date r.end_date = true → strLe s e = true →
          orDateFilter s e r = true)
  ∧ checkAvailability dbBoundary "equipment" "E" "2024-01-13" "2024-01-15" = false
  ∧ specCheckAvailability dbBoundary "equipment" "E" "2024-01-13" "2024-01-15" = true := by
  refine ⟨?_, by decide, by decide⟩
  intro r s e h1 h2
  unfold orDateFilter
  rcases strLe_total r.start_date e with h | h
  · simp [h]
  · have h3 : strLe s r.end_date = true := strLe_trans h2 (strLe_trans h h1)
    simp [h3]

/-- Witness for the universally quantified conjunct of C1's theorem: the OR
date condition holds at the concrete disjoint window. -/
theorem checkAvailability_or_filter_rejects_disjoint_window_witness :
    orDateFilter "2024-01-13" "2024-01-15" rBoundary = true :=
  checkAvailability_or_filter_rejects_disjoint_window.1 rBoundary
    "2024-01-13" "2024-01-15" (by decide) (by decide)

/-- Claim C9: when the selected target id, the start date or the end date is
the empty string, `checkAvailability` answers available without consulting
the reservations (the database is arbitrary and unused). -/
theorem checkAvailability_empty_input (db : DB) (ty sid sd ed : String)
    (h : sid = "" ∨ sd = "" ∨ ed = "") :
    checkAvailability db ty sid sd ed = true := by
  rcases h with h | h | h <;> subst h <;> simp [checkAvailability]

/-- Witness for C9's theorem: an empty target id passes the check even
though the database holds an overlapping active reservation. -/
theorem checkAvailability_empty_input_witness :
    checkAvailability dbBoundary "equipment" "" "2024-01-10" "2024-01-12" = true :=
  checkAvailability_empty_input dbBoundary "equipment" "" "2024-01-10" "2024-01-12"
    (Or.inl rfl)

/-- Claim C5: the availability check reads only reservation rows, so two
database states with identical reservations and arbitrarily different
equipment status fields get the same answer for every target and window. -/
theorem checkAvailability_ignores_equipment_status (db1 db2 : DB)
    (h : db1.reservations = db2.reservations) (ty sid sd ed : String) :
    checkAvailability db1 ty sid sd ed = checkAvailability db2 ty sid sd ed := by
  simp only [checkAvailability, h]

/-- Witness for C5's theorem: booking kit `K` is not blocked even though its
member `M1` is in use under an unrelated direct reservation, and flipping
`M1`'s stored status does not change the answer. -/
theorem checkAvailability_ignores_equipment_status_witness :
    checkAvailability kitDbInUse "kit" "K" "2024-03-02" "2024-03-04"
      = checkAvailability kitDbAvail "kit" "K" "2024-03-02" "2024-03-04"
  ∧ checkAvailability kitDbInUse "kit" "K" "2024-03-02" "2024-03-04" = true :=
  ⟨checkAvailability_ignores_equipment_status kitDbInUse kitDbAvail rfl
      "kit" "K" "2024-03-02" "2024-03-04",
   by decide⟩

/-- Claim C6: a reservation is pickup-eligible exactly when its status is
still `agendado` and its start date is on or before today. -/
theorem isPickupEligible_iff (today : String) (r : Reservation) :
    isPickupEligible today r = true ↔
      r.status = "agendado" ∧ strLe r.start_date today = true := by
  unfold isPickupEligible
  by_cases h : r.status = "agendado"
  · simp [h]
  · simp [h]

theorem mem_updateReservationRow {db : DB} {rid : String} {f : Reservation → Reservation}
    {x : Reservation} (hx : x ∈ (updateReservationRow db rid f).reservations) :
    (∃ r ∈ db.reservations, (r.id == rid) = true ∧ x = f r) ∨
      (x ∈ db.reservations ∧ (x.id == rid) = false) := by
  simp only [updateReservationRow, List.mem_map] at hx
  obtain ⟨r, hr, hxr⟩ := hx
  by_cases h : (r.id == rid) = true
  · exact Or.inl ⟨r, hr, h, by rw [← hxr, if_pos h]⟩
  · rw [if_neg h] at hxr
    subst hxr
    exact Or.inr ⟨hr, Bool.not_eq_true _ ▸ h⟩

theorem setEquipmentStatus_mem {db : DB} {eid s : String} {e : Equip}
    (he : e ∈ (setEquipmentStatus db eid s).equipment) (hid : e.id = eid) :
    e.status = s := by
  simp only [setEquipmentStatus, List.mem_map] at he
  obtain ⟨a, ha, hae⟩ := he
  by_cases h : (a.id == eid) = true
  · rw [if_pos h] at hae
    rw [← hae]
  · rw [if_neg h] at hae
    subst hae
    exact absurd (beq_iff_eq.mpr hid) h

theorem setEquipmentStatusIn_mem {db : DB} {ids : List String} {s : String} {e : Equip}
    (he : e ∈ (setEquipmentStatusIn db ids s).equipment) (hid : ids.contains e.id = true) :
    e.status = s := by
  simp only [setEquipmentStatusIn, List.mem_map] at he
  obtain ⟨a, ha, hae⟩ := he
  by_cases h : ids.contains a.id = true
  · rw [if_pos h] at hae
    rw [← hae]
  · rw [if_neg h] at hae
    subst hae
    exact absurd hid h

/-- Claim C4: the derived kit status is `vazio` exactly for a kit with no
members, `disponível` exactly when there are members and all of them are
available, `em uso` exactly when there are members, not all available, and
at least one in use, and `reservado` in exactly the remaining case. -/
theorem getKitStatus_cases (l : List Equip) :
    (getKitStatus l = "vazio" ↔ l = [])
  ∧ (getKitStatus l = "disponível" ↔ l ≠ [] ∧ ∀ e ∈ l, e.status = "disponível")
  ∧ (getKitStatus l = "em uso" ↔
       l ≠ [] ∧ ¬ (∀ e ∈ l, e.status = "disponível") ∧ ∃ e ∈ l, e.status = "em uso")
  ∧ (getKitStatus l = "reservado" ↔
       l ≠ [] ∧ ¬ (∀ e ∈ l, e.status = "disponível") ∧ ¬ ∃ e ∈ l, e.status = "em uso") := by
  by_cases h0 : l = []
  · subst h0
    exact ⟨iff_of_true (by decide) rfl,
           iff_of_false (by decide) (fun h => h.1 rfl),
           iff_of_false (by decide) (fun h => h.1 rfl),
           iff_of_false (by decide) (fun h => h.1 rfl)⟩
  · have hlen : (l.length == 0) = false := by
      simp [List.length_eq_zero, h0]
    by_cases hall : ∀ e ∈ l, e.status = "disponível"
    · have hallb : l.all (fun e => e.status == "disponível") = true := by
        simpa [List.all_eq_true] using hall
      have hg : getKitStatus l = "disponível" := by
        simp [getKitStatus, hlen, hallb]
      rw [hg]
      exact ⟨iff_of_false (by decide) h0,
             iff_of_true rfl ⟨h0, hall⟩,
             iff_of_false (by decide) (fun h => h.2.1 hall),
             iff_of_false (by decide) (fun h => h.2.1 hall)⟩
    · have hallb : l.all (fun e => e.status == "disponível") = false := by
        rw [Bool.eq_false_iff]
        intro hc
        exact hall (by simpa [List.all_eq_true] using hc)
      by_cases hany : ∃ e ∈ l, e.status = "em uso"
      · have hanyb : l.any (fun e => e.status == "em uso") = true := by
          simpa [List.any_eq_true] using hany
        have hg : getKitStatus l = "em uso" := by
          simp [getKitStatus, hlen, hallb, hanyb]
        rw [hg]
        exact ⟨iff_of_false (by decide) h0,
               iff_of_false (by decide) (fun h => hall h.2),
               iff_of_true rfl ⟨h0, hall, hany⟩,
               iff_of_false (by decide) (fun h => h.2.2 hany)⟩
      · have hanyb : l.any (fun e => e.status == "em uso") = false := by
          rw [Bool.eq_false_iff]
          intro hc
          exact hany (by simpa [List.any_eq_true] using hc)
        have hg : getKitStatus l = "reservado" := by
          simp [getKitStatus, hlen, hallb, hanyb]
        rw [hg]
        exact ⟨iff_of_false (by decide) h0,
               iff_of_false (by decide) (fun h => hall h.2),
               iff_of_false (by decide) (fun h => hany h.2.2),
               iff_of_true rfl ⟨h0, hall, hany⟩⟩

/-- Claim C7: the pickup flow is entirely insensitive to the outcome of the
notification POST: the whole invocation result (reported result and final
stored state) is the same for every notification outcome, and
`sendSummaryEmail` returns normally for an OK response, a non-OK response
and a network error alike, so a notification failure is never surfaced to
the caller. -/
theorem handlePickup_notify_fire_and_forget :
    (∀ (db : DB) (rs : List Reservation) (sid : String) (photos : List String)
        (today : String) (oc : RemoteOutcome) (n n' : NotifyResult),
        handlePickup db rs sid photos today { oc with notifySend := n }
          = handlePickup db rs sid photos today { oc with notifySend := n' })
  ∧ (∀ n, sendSummaryEmail n = Except.ok ()) := by
  have hsend : ∀ n, sendSummaryEmail n = Except.ok () := by
    intro n
    cases n <;> rfl
  refine ⟨?_, hsend⟩
  intro db rs sid photos today oc n n'
  simp only [handlePickup, hsend]

/-- Counterexample to claim C2 as stated: the reservation and equipment
status updates are separate remote calls, not one transaction.  Starting
from a state where every equipment status agrees with the reservations
(`statusConsistent`), a pickup whose reservation update succeeds but whose
equipment update fails still reports success, and leaves the reservation
`em uso` while its equipment row still reads `disponível`: the two have
drifted apart, refuting "the two can never drift apart". -/
theorem status_drift_counterexample :
    statusConsistent dbBoundary = true
  ∧ (handlePickup dbBoundary [rBoundary] "r1" ["p1"] "2024-01-10" pickupEquipFail).1
      = Except.ok ()
  ∧ statusConsistent
      (handlePickup dbBoundary [rBoundary] "r1" ["p1"] "2024-01-10" pickupEquipFail).2
      = false :=
  ⟨by decide, rfl, by decide⟩

/-- Claim C8: a Create, Pickup or Return invocation with an empty photo list
fails synchronously with the validation error, before any remote call: the
returned state is exactly the input state, so no upload, insert or status
update ever happened. -/
theorem empty_photo_list_rejected (db : DB)
    (ty sid sd ed reason uid nid today : String)
    (rs : List Reservation) (oc : RemoteOutcome) (photos : List String)
    (hp : photos = []) (hsid : sid ≠ "") :
    handleSubmit db ty sid sd ed reason photos uid nid oc
        = (.error "Adicione pelo menos uma foto da retirada", db)
  ∧ handlePickup db rs sid photos today oc
        = (.error "Adicione pelo menos uma foto da retirada", db)
  ∧ handleReturn db rs sid photos oc
        = (.error "Adicione pelo menos uma foto da devolução", db) := by
  subst hp
  have hsidb : (sid == "") = false := by
    simpa using hsid
  exact ⟨by simp [handleSubmit], by simp [handlePickup, hsidb], by simp [handleReturn, hsidb]⟩

/-- Witness for C8's theorem at a concrete state: all three operations
reject the empty photo list and return the state unchanged. -/
theorem empty_photo_list_rejected_witness :
    handleSubmit dbBoundary "equipment" "r1" "2024-01-13" "2024-01-15" "motivo" [] "u1" "r9" allOk
        = (.error "Adicione pelo menos uma foto da retirada", dbBoundary)
  ∧ handlePickup dbBoundary [rBoundary] "r1" [] "2024-01-10" allOk
        = (.error "Adicione pelo menos uma foto da retirada", dbBoundary)
  ∧ handleReturn dbBoundary [rBoundary] "r1" [] allOk
        = (.error "Adicione pelo menos uma foto da devolução", dbBoundary) :=
  empty_photo_list_rejected dbBoundary "equipment" "r1" "2024-01-13" "2024-01-15"
    "motivo" "u1" "r9" "2024-01-10" [rBoundary] allOk [] rfl (by decide)

@[simp] theorem setEquipmentStatus_reservations (db : DB) (eid s : String) :
    (setEquipmentStatus db eid s).reservations = db.reservations := rfl

@[simp] theorem setEquipmentStatusIn_reservations (db : DB) (ids : List String) (s : String) :
    (setEquipmentStatusIn db ids s).reservations = db.reservations := rfl

@[simp] theorem updateReservationRow_equipment (db : DB) (rid : String)
    (f : Reservation → Reservation) :
    (updateReservationRow db rid f).equipment = db.equipment := rfl

@[simp] theorem updateReservationRow_kit_equipment (db : DB) (rid : String)
    (f : Reservation → Reservation) :
    (updateReservationRow db rid f).kit_equipment = db.kit_equipment := rfl

@[simp] theorem kitMemberIds_updateReservationRow (db : DB) (rid : String)
    (f : Reservation → Reservation) (kid : String) :
    kitMemberIds (updateReservationRow db rid f) kid = kitMemberIds db kid := rfl

/-- Claim C3: a return on a found reservation with at least one photo, with
every remote call succeeding, reports success, marks every stored row of
that reservation `concluído` with exactly the supplied return photo
references, and reverts the referenced equipment to `disponível`
unconditionally — the statement quantifies over arbitrary databases, in
particular ones where other active reservations still claim the same
equipment; for a kit-backed reservation every member equipment of the kit
is reverted the same way. -/
theorem handleReturn_completes (db : DB) (rs : List Reservation) (sid : String)
    (photos : List String) (r : Reservation)
    (hf : rs.find? (fun x => x.id == sid) = some r)
    (hphotos : photos ≠ []) (hsid : sid ≠ "") :
    (handleReturn db rs sid photos allOk).1 = Except.ok ()
  ∧ (∀ x ∈ (handleReturn db rs sid photos allOk).2.reservations,
        x.id = sid → x.status = "concluído" ∧ x.return_photos = photos)
  ∧ (∀ eid, r.equipment_id = some eid →
        ∀ e ∈ (handleReturn db rs sid photos allOk).2.equipment,
          e.id = eid → e.status = "disponível")
  ∧ (∀ kid, r.equipment_id = none → r.kit_id = some kid →
        ∀ e ∈ (handleReturn db rs sid photos allOk).2.equipment,
          (kitMemberIds db kid).contains e.id = true → e.status = "disponível") := by
  have hsidb : (sid == "") = false := by simpa using hsid
  have hlen : (photos.length == 0) = false := by simpa using hphotos
  have hmain : ∀ db' : DB,
      (∀ x ∈ (updateReservationRow db' sid (fun x =>
          { x with status := "concluído", return_photos := photos })).reservations,
        x.id = sid → x.status = "concluído" ∧ x.return_photos = photos) := by
    intro db' x hx hid
    rcases mem_updateReservationRow hx with ⟨r', _, _, hx'⟩ | ⟨_, hne⟩
    · subst hx'
      exact ⟨rfl, rfl⟩
    · exact absurd (beq_iff_eq.mpr hid) (by simp [hne])
  cases hre : r.equipment_id with
  | some eid =>
    have heq : handleReturn db rs sid photos allOk =
        (Except.ok (),
          setEquipmentStatus (updateReservationRow db sid (fun x =>
            { x with status := "concluído", return_photos := photos })) eid "disponível") := by
      simp [handleReturn, hsidb, hlen, hf, hre, allOk]
    rw [heq]
    refine ⟨rfl, hmain db, ?_, ?_⟩
    · intro eid' heid' e he hide
      have h2 : eid' = eid := (Option.some.inj heid').symm
      exact setEquipmentStatus_mem he (h2 ▸ hide)
    · intro kid hnone _ _ _ _
      exact absurd hnone (by simp)
  | none =>
    cases hrk : r.kit_id with
    | some kid =>
      have heq : handleReturn db rs sid photos allOk =
          (Except.ok (),
            setEquipmentStatusIn (updateReservationRow db sid (fun x =>
              { x with status := "concluído", return_photos := photos }))
              (kitMemberIds db kid) "disponível") := by
        simp [handleReturn, hsidb, hlen, hf, hre, hrk, allOk]
      rw [heq]
      refine ⟨rfl, hmain db, ?_, ?_⟩
      · intro eid' heid' _ _ _
        exact absurd heid' (by simp)
      · intro kid' _ hkid' e he hk
        have hk2 : kid' = kid := (Option.some.inj hkid').symm
        exact setEquipmentStatusIn_mem he (hk2 ▸ hk)
    | none =>
      have heq : handleReturn db rs sid photos allOk =
          (Except.ok (),
            updateReservationRow db sid (fun x =>
              { x with status := "concluído", return_photos := photos })) := by
        simp [handleReturn, hsidb, hlen, hf, hre, hrk, allOk]
      rw [heq]
      refine ⟨rfl, hmain db, ?_, ?_⟩
      · intro eid' heid' _ _ _
        exact absurd heid' (by simp)
      · intro kid' _ hkid' _ _ _
        exact absurd hkid' (by simp)

/-- Claim C2 (amended): the reservation write and the equipment status
write are separate sequential remote calls, not one transaction (see the
drift counterexample `status_drift_counterexample`); what does hold is that
when every remote call of a pickup on an equipment-backed reservation
succeeds, the reservation rows and the claimed equipment rows are flipped
to `em uso` together in that single invocation. -/
theorem handlePickup_allOk_sets_both (db : DB) (rs : List Reservation)
    (sid : String) (photos : List String) (today : String) (r : Reservation) (eid : String)
    (hf : rs.find? (fun x => x.id == sid) = some r)
    (hre : r.equipment_id = some eid)
    (hphotos : photos ≠ []) (hsid : sid ≠ "") :
    (handlePickup db rs sid photos today allOk).1 = Except.ok ()
  ∧ (∀ x ∈ (handlePickup db rs sid photos today allOk).2.reservations,
        x.id = sid →
          x.status = "em uso" ∧ x.pickup_photos = photos ∧ x.pickup_completed = true)
  ∧ (∀ e ∈ (handlePickup db rs sid photos today allOk).2.equipment,
        e.id = eid → e.status = "em uso") := by
  have hsidb : (sid == "") = false := by simpa using hsid
  have hlen : (photos.length == 0) = false := by simpa using hphotos
  have heq2 : handlePickup db rs sid photos today allOk =
      (Except.ok (),
        updateReservationRow
          (setEquipmentStatus
            (updateReservationRow db sid (fun x =>
              { x with status := "em uso", pickup_photos := photos,
                       pickup_completed := true, pickup_date := today }))
            eid "em uso")
          sid (fun x => { x with email_sent := true })) := by
    simp [handlePickup, hsidb, hlen, hf, hre, allOk, sendSummaryEmail]
  rw [heq2]
  refine ⟨rfl, ?_, ?_⟩
  · intro x hx hid
    rcases mem_updateReservationRow hx with ⟨r1, hr1, hbeq, hx1⟩ | ⟨_, hne⟩
    · subst hx1
      have hr1' : r1 ∈ (updateReservationRow db sid (fun x =>
          { x with status := "em uso", pickup_photos := photos,
                   pickup_completed := true, pickup_date := today })).reservations := by
        simpa using hr1
      rcases mem_updateReservationRow hr1' with ⟨r2, _, _, hx2⟩ | ⟨_, hne2⟩
      · subst hx2
        exact ⟨rfl, rfl, rfl⟩
      · rw [hne2] at hbeq
        exact absurd hbeq (by decide)
    · exact absurd (beq_iff_eq.mpr hid) (by simp [hne])
  · intro e he hid
    have he' : e ∈ (setEquipmentStatus (updateReservationRow db sid (fun x =>
        { x with status := "em uso", pickup_photos := photos,
                 pickup_completed := true, pickup_date := today })) eid "em uso").equipment := by
      simpa using he
    exact setEquipmentStatus_mem he' hid

/-- Claim C10: by the time the notification POST is attempted the
`email_sent := true` update has already been issued, so in every pickup
invocation that reports success and whose `email_sent` write went through
(for any notification outcome, including failures), all stored rows of the
picked reservation end with `email_sent = true`. -/
theorem handlePickup_email_sent (db : DB) (rs : List Reservation) (sid : String)
    (photos : List String) (today : String) (oc : RemoteOutcome)
    (hok : (handlePickup db rs sid photos today oc).1 = Except.ok ())
    (hw : oc.emailSentWrite = true) :
    ∀ x ∈ (handlePickup db rs sid photos today oc).2.reservations,
      x.id = sid → x.email_sent = true := by
  have hsend : sendSummaryEmail oc.notifySend = Except.ok () := by
    cases h : oc.notifySend <;> rfl
  by_cases h1 : (sid == "") = true
  · simp [handlePickup, h1] at hok
  · have h1' : (sid == "") = false := by simpa using h1
    by_cases h2 : (photos.length == 0) = true
    · simp [handlePickup, h1', h2] at hok
    · have h2' : (photos.length == 0) = false := by simpa using h2
      cases hfind : rs.find? (fun x => x.id == sid) with
      | none => simp [handlePickup, h1', h2', hfind] at hok
      | some r =>
        by_cases h3 : oc.photoUpload = true
        · simp only [handlePickup, h1', h2', hfind, h3, hw, hsend, Bool.false_eq_true,
            if_false, Bool.not_true, if_true, ite_true, ite_false]
          intro x hx hid
          rcases mem_updateReservationRow hx with ⟨r1, _, _, hx1⟩ | ⟨_, hne⟩
          · subst hx1
            rfl
          · exact absurd (beq_iff_eq.mpr hid) (by simp [hne])
        · have h3' : oc.photoUpload = false := by simpa using h3
          simp [handlePickup, h1', h2', hfind, h3'] at hok

/-- Witness for the amended C2 theorem at a concrete state: the all-success
pickup leaves the equipment row in use alongside the reservation. -/
theorem handlePickup_allOk_sets_both_witness :
    (handlePickup dbBoundary [rBoundary] "r1" ["p1"] "2024-01-10" allOk).1 = Except.ok ()
  ∧ eqInUse ∈ (handlePickup dbBoundary [rBoundary] "r1" ["p1"] "2024-01-10" allOk).2.equipment
  ∧ eqInUse.status = "em uso" := by
  have h := handlePickup_allOk_sets_both dbBoundary [rBoundary] "r1" ["p1"] "2024-01-10"
    rBoundary "E" (by decide) rfl (by decide) (by decide)
  exact ⟨h.1, by decide, h.2.2 eqInUse (by decide) rfl⟩

/-- Witness for C3's theorem at a concrete state in which a second active
reservation still claims equipment `E`: the return completes, stores the
supplied photo references, and reverts `E` to available anyway. -/
theorem handleReturn_completes_witness :
    (handleReturn dbReturn [rInUse] "r5" ["rp1"] allOk).1 = Except.ok ()
  ∧ rReturned ∈ (handleReturn dbReturn [rInUse] "r5" ["rp1"] allOk).2.reservations
  ∧ rReturned.status = "concluído" ∧ rReturned.return_photos = ["rp1"]
  ∧ eqAvailable ∈ (handleReturn dbReturn [rInUse] "r5" ["rp1"] allOk).2.equipment
  ∧ eqAvailable.status = "disponível" := by
  have h := handleReturn_completes dbReturn [rInUse] "r5" ["rp1"] rInUse
    (by decide) (by decide) (by decide)
  exact ⟨h.1, by decide, (h.2.1 rReturned (by decide) rfl).1,
    (h.2.1 rReturned (by decide) rfl).2, by decide,
    h.2.2.1 "E" rfl eqAvailable (by decide) rfl⟩

/-- Witness for C10's theorem at a concrete state: after a pickup whose
notification POST failed with a network error, the stored reservation row
has `email_sent = true`. -/
theorem handlePickup_email_sent_witness :
    rPicked ∈ (handlePickup dbBoundary [rBoundary] "r1" ["p1"] "2024-01-10"
        pickupNotifyFail).2.reservations
  ∧ rPicked.email_sent = true :=
  ⟨by decide,
   handlePickup_email_sent dbBoundary [rBoundary] "r1" ["p1"] "2024-01-10"
     pickupNotifyFail rfl rfl rPicked (by decide) rfl⟩
